import Mathlib

/-!
Verification development for the tiktok-uploader repository
(`src/upload.py`, `src/transcribe.py`).

The Python code is shallowly embedded: pure helpers become Lean functions,
and the effectful publish pipeline (`direct_post_video`, `poll_video_status`,
the batch driver in `main`) is modelled as a function of an explicit
environment that supplies the provider's responses, returning both the
session's result (a returned value, a raised exception, or divergence of
the unbounded poll loop) and the list of network calls issued.
-/

/- ### PKCE generator (`upload.py` lines 45-54) -/

/-- The character pool of `generate_code_verifier`:
`string.ascii_letters + string.digits + "-._~"` (lowercase first, as in
CPython's `ascii_letters`). -/
def verifierAllowed : List Char :=
  "abcdefghijklmnopqrstuvwxyzABCDEFGHIJKLMNOPQRSTUVWXYZ0123456789-._~".data

/-- `random.choice(seq)`: an arbitrary draw from the pool, modelled by an
externally supplied number `k` reduced modulo the pool size. -/
def pychoice (l : List Char) (k : Nat) : Char :=
  l.getD (k % l.length) 'a'

/-- `generate_code_verifier(length=64)` (`upload.py` line 45-47), with the
random number generator abstracted as `pick : Nat → Nat` giving the draw
used at each position. -/
def generate_code_verifier (length : Nat) (pick : Nat → Nat) : String :=
  ⟨(List.range length).map (fun i => pychoice verifierAllowed (pick i))⟩

/- ### SHA-256 (as used by `generate_code_challenge`, `upload.py` 49-50) -/

/-- 32-bit modulus. -/
def w32 : Nat := 4294967296

/-- Addition modulo 2^32. -/
def wadd (a b : Nat) : Nat := (a + b) % w32

/-- Right rotation of a 32-bit word. -/
def rotr (x n : Nat) : Nat := ((x >>> n) ||| (x <<< (32 - n))) % w32

/-- 32-bit bitwise complement. -/
def wnot (x : Nat) : Nat := 4294967295 - x % w32

def bsig0 (x : Nat) : Nat := (rotr x 2) ^^^ (rotr x 13) ^^^ (rotr x 22)

def bsig1 (x : Nat) : Nat := (rotr x 6) ^^^ (rotr x 11) ^^^ (rotr x 25)

def ssig0 (x : Nat) : Nat := (rotr x 7) ^^^ (rotr x 18) ^^^ (x >>> 3)

def ssig1 (x : Nat) : Nat := (rotr x 17) ^^^ (rotr x 19) ^^^ (x >>> 10)

def sha256ch (x y z : Nat) : Nat := (x &&& y) ^^^ ((wnot x) &&& z)

def sha256maj (x y z : Nat) : Nat := (x &&& y) ^^^ (x &&& z) ^^^ (y &&& z)

/-- The 64 SHA-256 round constants (FIPS 180-4, written in decimal). -/
def sha256K : List Nat :=
  [1116352408, 1899447441, 3049323471, 3921009573, 961987163,
   1508970993, 2453635748, 2870763221, 3624381080, 310598401,
   607225278, 1426881987, 1925078388, 2162078206, 2614888103,
   3248222580, 3835390401, 4022224774, 264347078, 604807628,
   770255983, 1249150122, 1555081692, 1996064986, 2554220882,
   2821834349, 2952996808, 3210313671, 3336571891, 3584528711,
   113926993, 338241895, 666307205, 773529912, 1294757372,
   1396182291, 1695183700, 1986661051, 2177026350, 2456956037,
   2730485921, 2820302411, 3259730800, 3345764771, 3516065817,
   3600352804, 4094571909, 275423344, 430227734, 506948616,
   659060556, 883997877, 958139571, 1322822218, 1537002063,
   1747873779, 1955562222, 2024104815, 2227730452, 2361852424,
   2428436474, 2756734187, 3204031479, 3329325298]

/-- The SHA-256 initial hash value (FIPS 180-4, written in decimal). -/
def sha256H0 : List Nat :=
  [1779033703, 3144134277, 1013904242, 2773480762,
   1359893119, 2600822924, 528734635, 1541459225]

/-- SHA-256 padding: append `0x80`, zeros to 56 mod 64, and the 64-bit
big-endian bit length. -/
def sha256pad (msg : List Nat) : List Nat :=
  let L := msg.length
  let z := (119 - L % 64) % 64
  msg ++ [0x80] ++ List.replicate z 0 ++
    (List.range 8).map (fun i => ((8 * L) >>> (8 * (7 - i))) % 256)

/-- Big-endian 4-byte groups to 32-bit words. -/
def bytesToWords : List Nat → List Nat
  | b0 :: b1 :: b2 :: b3 :: rest =>
      (((b0 * 256 + b1) * 256 + b2) * 256 + b3) :: bytesToWords rest
  | _ => []

/-- Extend the 16 block words to the 64-entry message schedule. -/
def sha256schedule (w16 : List Nat) : List Nat :=
  (List.range 48).foldl
    (fun w _ =>
      w ++ [wadd (wadd (ssig1 (w.getD (w.length - 2) 0)) (w.getD (w.length - 7) 0))
                 (wadd (ssig0 (w.getD (w.length - 15) 0)) (w.getD (w.length - 16) 0))])
    w16

/-- One round of the SHA-256 compression function on the 8-word state. -/
def sha256round (st : List Nat) (kw : Nat × Nat) : List Nat :=
  match st with
  | [a, b, c, d, e, f, g, h] =>
      let t1 := wadd (wadd (wadd h (bsig1 e)) (wadd (sha256ch e f g) kw.1)) kw.2
      let t2 := wadd (bsig0 a) (sha256maj a b c)
      [wadd t1 t2, a, b, c, wadd d t1, e, f, g]
  | other => other

/-- Process one 64-byte block. -/
def sha256block (h : List Nat) (block : List Nat) : List Nat :=
  let st := ((sha256K.zip (sha256schedule (bytesToWords block)))).foldl sha256round h
  (h.zip st).map (fun p => wadd p.1 p.2)

/-- SHA-256 of a byte list, as the 8-word final state. -/
def sha256words (msg : List Nat) : List Nat :=
  let padded := sha256pad msg
  (List.range (padded.length / 64)).foldl
    (fun h i => sha256block h ((padded.drop (64 * i)).take 64)) sha256H0

def hexDigit (n : Nat) : Char := "0123456789abcdef".data.getD (n % 16) '0'

/-- A 32-bit word as 8 lowercase hex digits, as in `hexdigest()`. -/
def wordToHex (w : Nat) : List Char :=
  (List.range 8).map (fun i => hexDigit ((w >>> (4 * (7 - i))) % 16))

/-- `hashlib.sha256(...).hexdigest()` over a byte list. -/
def sha256hexdigest (msg : List Nat) : String :=
  ⟨(sha256words msg).foldr (fun w acc => wordToHex w ++ acc) []⟩

/-- `s.encode('utf-8')` as a byte list. -/
def utf8bytes (s : String) : List Nat :=
  s.toUTF8.toList.map (fun b => b.toNat)

/-- `generate_code_challenge(code_verifier)` (`upload.py` lines 49-50):
the hex digest of the SHA-256 of the UTF-8 encoded verifier. -/
def generate_code_challenge (code_verifier : String) : String :=
  sha256hexdigest (utf8bytes code_verifier)

/- ### Path handling (`os.path.splitext`, `os.path.basename`, POSIX rules) -/

/-- Index just past the last occurrence of `c` in `chars`
(`p.rfind(c) + 1`, i.e. `0` when `c` does not occur). -/
def idxPastLast (chars : List Char) (c : Char) : Nat :=
  (chars.foldl
    (fun acc ch => if ch = c then (acc.2 + 1, acc.2 + 1) else (acc.1, acc.2 + 1))
    ((0 : Nat), (0 : Nat))).1

/-- `os.path.splitext` on a POSIX path: split at the last dot of the final
component, unless every character of the component before that dot is a dot
(so leading dots of a basename never start an extension). -/
def splitext (p : String) : String × String :=
  let chars := p.data
  let fnIdx := idxPastLast chars '/'
  let dotPast := idxPastLast chars '.'
  if dotPast = 0 then (p, "")
  else
    let d := dotPast - 1
    if fnIdx ≤ d then
      if ((chars.drop fnIdx).take (d - fnIdx)).all (fun ch => ch = '.') then (p, "")
      else (⟨chars.take d⟩, ⟨chars.drop d⟩)
    else (p, "")

/-- `os.path.basename` on a POSIX path: everything after the last slash. -/
def basename (p : String) : String :=
  ⟨(p.data.reverse.takeWhile (fun ch => ch ≠ '/')).reverse⟩

namespace Transcribe

/-- `TRANSCRIPT_EXTENSION` as defined in `src/transcribe.py` line 23. -/
def TRANSCRIPT_EXTENSION : String := ".txt"

/-- The sidecar path written by `save_description` (`transcribe.py` lines
99-101): `os.path.splitext(video_path)[0] + TRANSCRIPT_EXTENSION`. -/
def save_description_path (video_path : String) : String :=
  (splitext video_path).1 ++ TRANSCRIPT_EXTENSION

end Transcribe

namespace Upload

/-- `TRANSCRIPT_EXTENSION` as defined in `src/upload.py` line 40. -/
def TRANSCRIPT_EXTENSION : String := ".txt"

/-- The caption artifact path read by `direct_post_video` (`upload.py` lines
209-210): `os.path.splitext(video_path)[0] + TRANSCRIPT_EXTENSION`. -/
def caption_txt_file (video_path : String) : String :=
  (splitext video_path).1 ++ TRANSCRIPT_EXTENSION

end Upload

/- ### Provider responses and the publish session environment -/

/-- The initialization endpoint's response as `initialize_video_post`
inspects it: HTTP status, presence of a top-level `"error"` object and its
`"code"`, and the `"data"` object's `publish_id` / `upload_url`. -/
structure InitResponse where
  status_code : Nat
  hasError : Bool
  errorCode : Option String
  publish_id : Option String
  upload_url : Option String
deriving DecidableEq

/-- One response of the status endpoint as `poll_video_status` inspects it:
HTTP status and `data.get("status")`. -/
structure PollResponse where
  status_code : Nat
  status : Option String
deriving DecidableEq

/-- The environment one publish session runs against: the local caption
artifact and the provider's successive responses.  `pollResponses` is the
(finite, observed) prefix of answers of the status endpoint. -/
structure Env where
  captionExists : Bool
  captionText : String
  fileSize : Nat
  initResponse : InitResponse
  uploadStatus : Nat
  pollResponses : List PollResponse
deriving DecidableEq

/-- Exceptions the embedded code can raise.  `requests.put(None, ...)`
raises `MissingSchema` while parsing the URL, before any request is sent. -/
inductive PyError where
  | missingSchema
deriving DecidableEq

/-- The HTTP requests a session can issue. -/
inductive NetCall where
  | initCall
  | transferCall
  | pollCall
deriving DecidableEq

/-- What a session does: return a value (`None`, `"RATE_LIMIT"` or a
publish id), raise an exception, or loop forever in the poll step. -/
inductive SessionOutcome where
  | retVal (v : Option String)
  | exn (e : PyError)
  | hangs
deriving DecidableEq

/-- Python truthiness of an optional string: `None` and `""` are falsy. -/
def pyTruthyStr : Option String → Bool
  | none => false
  | some s => s ≠ ""

/-- Python truthiness of a pair: a 2-tuple is always truthy, so
`not init_result` is always `False` for the pairs `initialize_video_post`
returns. -/
def pyPairIsTruthy (_p : Option String × Option String) : Bool := true

/-- `a.startswith(b)`: `b` is an initial run of `a`, checked char by char. -/
def strStarts (b a : List Char) : Bool :=
  match b, a with
  | [], _ => true
  | _ :: _, [] => false
  | x :: xs, y :: ys => x = y && strStarts xs ys

/-- Upload-URL normalization (`upload.py` lines 154-155). -/
def normalize_upload_url (u : String) : String :=
  if strStarts "http".data u.data then u else "https://" ++ u

/-- `initialize_video_post` (`upload.py` lines 125-164), as a function of
the provider's response.  Returns the Python pair `(publish_id, upload_url)`:
`("RATE_LIMIT", None)` on the recognized rate-limit error code,
`(publish_id, upload_url)` when both fields are truthy, `(None, None)`
otherwise (missing fields or non-200 status). -/
def init_video_post (resp : InitResponse) : Option String × Option String :=
  if resp.status_code = 200 then
    if resp.hasError = true ∧ resp.errorCode = some "spam_risk_too_many_pending_share" then
      (some "RATE_LIMIT", none)
    else if pyTruthyStr resp.publish_id = true ∧ pyTruthyStr resp.upload_url = true then
      (resp.publish_id, resp.upload_url.map normalize_upload_url)
    else
      (none, none)
  else
    (none, none)

/-- `poll_video_status` (`upload.py` lines 188-204) over the observed
response prefix.  Yields `some (returned value, queries issued, sleeps
taken)` when the loop returns within the prefix, `none` when it exhausts
the prefix without returning (the unbounded loop keeps going).  A 200
response is terminal unless its status is `"PROCESSING_UPLOAD"`; a 404
returns the synthetic `"COMPLETED"`; anything else is logged and the loop
sleeps 5 seconds and re-queries. -/
def poll_video_status : List PollResponse → Option (Option String × Nat × Nat)
  | [] => none
  | r :: rs =>
    if r.status_code = 200 then
      if r.status ≠ some "PROCESSING_UPLOAD" then
        some (r.status, 1, 0)
      else
        match poll_video_status rs with
        | none => none
        | some (res, q, s) => some (res, q + 1, s + 1)
    else if r.status_code = 404 then
      some (some "COMPLETED", 1, 0)
    else
      match poll_video_status rs with
      | none => none
      | some (res, q, s) => some (res, q + 1, s + 1)

/-- `direct_post_video` (`upload.py` lines 207-225): read the caption
artifact (returning `None` when it is missing, before any network call),
initialize, guard with `if not init_result or init_result[0] == "RATE_LIMIT"`
(a 2-tuple is always truthy, so only the `"RATE_LIMIT"` first component
fires), transfer, poll, and return the publish id.  The second component
collects the network calls issued. -/
def direct_post_video (env : Env) : SessionOutcome × List NetCall :=
  if env.captionExists = false then
    (SessionOutcome.retVal none, [])
  else
    let init_result := init_video_post env.initResponse
    if pyPairIsTruthy init_result = false ∨ init_result.1 = some "RATE_LIMIT" then
      (SessionOutcome.retVal (some "RATE_LIMIT"), [NetCall.initCall])
    else
      match init_result.2 with
      | none =>
          (SessionOutcome.exn PyError.missingSchema, [NetCall.initCall])
      | some _ =>
          if env.uploadStatus = 200 ∨ env.uploadStatus = 201 then
            match poll_video_status env.pollResponses with
            | none =>
                (SessionOutcome.hangs,
                 [NetCall.initCall, NetCall.transferCall] ++
                   List.replicate env.pollResponses.length NetCall.pollCall)
            | some (_, q, _) =>
                (SessionOutcome.retVal init_result.1,
                 [NetCall.initCall, NetCall.transferCall] ++
                   List.replicate q NetCall.pollCall)
          else
            (SessionOutcome.retVal none, [NetCall.initCall, NetCall.transferCall])

/- ### Batch driver and result aggregation (`upload.py` lines 263-284) -/

/-- What the batch loop in `main` produces: the collected `(file, result)`
pairs, or a crash when a worker's exception is re-raised by
`future.result()`, or a driver that never finishes because a worker hangs. -/
inductive BatchResult where
  | ok (pairs : List (String × Option String))
  | crashed (e : PyError)
  | blocked
deriving DecidableEq

/-- The batch loop of `main` (`upload.py` lines 263-268): run one session
per file, collect `(file, result)` pairs; an exception raised inside a
session propagates out of `future.result()` and crashes the driver. -/
def runBatch : List (String × Env) → BatchResult
  | [] => BatchResult.ok []
  | (v, env) :: rest =>
    match (direct_post_video env).1 with
    | SessionOutcome.retVal r =>
        match runBatch rest with
        | BatchResult.ok pairs => BatchResult.ok ((v, r) :: pairs)
        | other => other
    | SessionOutcome.exn e => BatchResult.crashed e
    | SessionOutcome.hangs => BatchResult.blocked

/-- `success` in `main` (`upload.py` line 270):
`[os.path.basename(f) for f, pub in results if pub and pub != "RATE_LIMIT"]`. -/
def success_items (results : List (String × Option String)) : List String :=
  (results.filter
    (fun p => pyTruthyStr p.2 && !(p.2 = some "RATE_LIMIT" : Bool))).map
    (fun p => basename p.1)

/-- `failures` in `main` (`upload.py` line 271):
`[(os.path.basename(f), pub) for f, pub in results if pub is None or pub == "RATE_LIMIT"]`. -/
def failure_items (results : List (String × Option String)) :
    List (String × Option String) :=
  (results.filter
    (fun p => (p.2 = none : Bool) || (p.2 = some "RATE_LIMIT" : Bool))).map
    (fun p => (basename p.1, p.2))

/- ### Concrete inputs used by the theorems below -/

/-- An init response that succeeds with publish id `"p1"`. -/
def okInitResp : InitResponse :=
  { status_code := 200, hasError := false, errorCode := none,
    publish_id := some "p1", upload_url := some "https://u" }

/-- A 200 init response whose body carries neither `publish_id` nor
`upload_url` (and no error code): the "bad init response" case. -/
def emptyInitResp : InitResponse :=
  { status_code := 200, hasError := false, errorCode := none,
    publish_id := none, upload_url := none }

/-- An init response carrying the recognized rate-limit error code. -/
def rateLimitInitResp : InitResponse :=
  { status_code := 200, hasError := true,
    errorCode := some "spam_risk_too_many_pending_share",
    publish_id := none, upload_url := none }

/-- A session whose init response is the bad one. -/
def badInitEnv : Env :=
  { captionExists := true, captionText := "caption", fileSize := 10,
    initResponse := emptyInitResp, uploadStatus := 200, pollResponses := [] }

/-- A session that completes normally with final status `"PUBLISHED"`. -/
def goodEnv : Env :=
  { captionExists := true, captionText := "caption", fileSize := 10,
    initResponse := okInitResp, uploadStatus := 200,
    pollResponses := [{ status_code := 200, status := some "PUBLISHED" }] }

/-- A session whose poll ends in the provider-reported status `"FAILED"`. -/
def failedPollEnv : Env :=
  { captionExists := true, captionText := "caption", fileSize := 10,
    initResponse := okInitResp, uploadStatus := 200,
    pollResponses := [{ status_code := 200, status := some "FAILED" }] }

/-- A session whose caption artifact is missing. -/
def noCaptionEnv : Env :=
  { captionExists := false, captionText := "", fileSize := 0,
    initResponse := emptyInitResp, uploadStatus := 0, pollResponses := [] }

/-- A session whose init response is rate-limited. -/
def rateLimitEnv : Env :=
  { captionExists := true, captionText := "caption", fileSize := 10,
    initResponse := rateLimitInitResp, uploadStatus := 200, pollResponses := [] }

/-- Batch results of one rate-limited and one published video. -/
def exBatchResults : List (String × Option String) :=
  [("d/a.mp4", some "RATE_LIMIT"), ("d/b.mp4", some "pub123")]

/-- A poll response that keeps the poll loop going: either a 200 with
status `"PROCESSING_UPLOAD"`, or a non-200 non-404 status code. -/
def pollContinues (r : PollResponse) : Prop :=
  (r.status_code = 200 ∧ r.status = some "PROCESSING_UPLOAD") ∨
  (r.status_code ≠ 200 ∧ r.status_code ≠ 404)

/- ### Helper lemmas -/

/-- An in-bounds `getD` is a member of the list. -/
theorem getD_mem_of_lt (l : List Char) (n : Nat) (d : Char) (h : n < l.length) :
    l.getD n d ∈ l := by
  induction l generalizing n with
  | nil => simp at h
  | cons a t ih =>
    cases n with
    | zero => simp [List.getD]
    | succ m =>
      have : m < t.length := by simpa using h
      simpa [List.getD] using Or.inr (ih m this)

/-- On outcomes other than `some ""`, `main`'s success predicate is the
Boolean negation of its failure predicate. -/
theorem outcome_class_split (o : Option String) (h : o ≠ some "") :
    (pyTruthyStr o && !(o = some "RATE_LIMIT" : Bool)) =
      !((o = none : Bool) || (o = some "RATE_LIMIT" : Bool)) := by
  cases o with
  | none => simp [pyTruthyStr]
  | some s =>
    have hs : s ≠ "" := fun hc => h (by rw [hc])
    by_cases hr : s = "RATE_LIMIT" <;> simp [pyTruthyStr, hr, hs]

/-- The success and failure lists of `main` together cover every result
whose outcome is not the empty-string publish id. -/
theorem success_failure_length (results : List (String × Option String))
    (hwf : ∀ r ∈ results, r.2 ≠ some "") :
    (success_items results).length + (failure_items results).length =
      results.length := by
  induction results with
  | nil => rfl
  | cons a t ih =>
    have ha := hwf a (List.mem_cons_self a t)
    have ht : ∀ r ∈ t, r.2 ≠ some "" := fun r hr => hwf r (List.mem_cons_of_mem a hr)
    have key := outcome_class_split a.2 ha
    have iht := ih ht
    simp only [success_items, failure_items, List.length_map] at iht ⊢
    cases hb : ((a.2 = none : Bool) || (a.2 = some "RATE_LIMIT" : Bool)) with
    | true =>
      have hsb : (pyTruthyStr a.2 && !(a.2 = some "RATE_LIMIT" : Bool)) = false := by
        rw [key, hb]; rfl
      simp [List.filter_cons, hb, hsb, iht]
      omega
    | false =>
      have hsb : (pyTruthyStr a.2 && !(a.2 = some "RATE_LIMIT" : Bool)) = true := by
        rw [key, hb]; rfl
      simp [List.filter_cons, hb, hsb, iht]
      omega

/- ### Claim theorems -/

/-- Claim C1 (code bug): an initialization response with no recognized
rate-limit code and without both fields does NOT produce the per-job
failure value.  `initialize_video_post` returns the pair `(None, None)`,
which is a truthy Python tuple, so the guard
`if not init_result or init_result[0] == "RATE_LIMIT"` falls through and
`upload_video_file(None, ...)` raises `MissingSchema`; the intended outcome
per the code's own error message (`"Error: Missing publish_id or
upload_url"`) and per the spec is the Failed value `None` with no further
steps.  Here the code is evaluated at such a response: the session ends in
the uncaught exception. -/
theorem bad_init_response_raises_missing_schema :
    direct_post_video badInitEnv =
      (SessionOutcome.exn PyError.missingSchema, [NetCall.initCall]) := rfl

/-- Claim C2 (code bug): a batch containing one session with a bad init
response does not return one outcome pair per video; the `MissingSchema`
exception raised inside that session propagates out of `future.result()`
and crashes the batch driver. -/
theorem batch_crashes_on_bad_init_session :
    runBatch [("a.mp4", goodEnv), ("b.mp4", badInitEnv)] =
      BatchResult.crashed PyError.missingSchema := rfl

/-- Claim C3 counterexample: a session whose transfer succeeds and whose
poll ends in the provider-reported status `"FAILED"` does not yield that
final status string as its outcome; it yields the publish id `"p1"`, which
`main`'s aggregation then classifies as a success. -/
theorem session_failed_poll_yields_publish_id :
    (direct_post_video failedPollEnv).1 = SessionOutcome.retVal (some "p1") ∧
    poll_video_status failedPollEnv.pollResponses = some (some "FAILED", 1, 0) ∧
    success_items [("v.mp4", some "p1")] = ["v.mp4"] ∧
    SessionOutcome.retVal (some "p1") ≠ SessionOutcome.retVal (some "FAILED") := by
  refine ⟨rfl, rfl, rfl, by decide⟩

/-- Claim C3 amended: for every Publish Session that completes the Transfer
step and whose poll loop returns at all, the session's outcome is the
publish identifier from the Init step, independent of the final status
string the Poll step returns (that string is only printed). -/
theorem session_outcome_is_publish_id (env : Env) (pid url : String)
    (hc : env.captionExists = true)
    (hi : init_video_post env.initResponse = (some pid, some url))
    (hrl : pid ≠ "RATE_LIMIT")
    (hu : env.uploadStatus = 200 ∨ env.uploadStatus = 201)
    (res : Option String) (q s : Nat)
    (hp : poll_video_status env.pollResponses = some (res, q, s)) :
    (direct_post_video env).1 = SessionOutcome.retVal (some pid) := by
  unfold direct_post_video
  simp [hc, hi, hrl, hu, hp, pyPairIsTruthy]

/-- Witness for the amended C3 theorem at the concrete failed-poll session. -/
theorem session_outcome_is_publish_id_witness :
    (direct_post_video failedPollEnv).1 = SessionOutcome.retVal (some "p1") :=
  session_outcome_is_publish_id failedPollEnv "p1" "https://u" rfl (by decide)
    (by decide) (Or.inl rfl) (some "FAILED") 1 0 (by decide)

/-- Claim C4 counterexample: on one rate-limited and one published video,
`main` computes only two classes; the rate-limited video lands inside the
`failures` list (reported as a failed upload), so the report shows 1
success and 1 failure rather than 1 success, 1 rate-limited and 0 hard
failures. -/
theorem rate_limited_lands_in_failures :
    success_items exBatchResults = ["b.mp4"] ∧
    failure_items exBatchResults = [("a.mp4", some "RATE_LIMIT")] := by
  refine ⟨by decide, by decide⟩

/-- Claim C4 amended: the aggregation in `main` partitions outcomes into
exactly two classes — successes (truthy outcome other than `"RATE_LIMIT"`)
and failures (`None` or `"RATE_LIMIT"`): on outcomes the sessions can
produce the two class sizes sum to the batch size, and every rate-limited
item is counted among the failures, distinguished only by its per-item
detail string. -/
theorem aggregator_two_way_partition (results : List (String × Option String))
    (hwf : ∀ r ∈ results, r.2 ≠ some "") :
    (success_items results).length + (failure_items results).length =
        results.length ∧
    (∀ r ∈ results, r.2 = some "RATE_LIMIT" →
        (basename r.1, r.2) ∈ failure_items results) := by
  refine ⟨success_failure_length results hwf, ?_⟩
  intro r hr hrl
  have hmem : r ∈ results.filter
      (fun p => (p.2 = none : Bool) || (p.2 = some "RATE_LIMIT" : Bool)) :=
    List.mem_filter.2 ⟨hr, by simp [hrl]⟩
  exact List.mem_map.2 ⟨r, hmem, rfl⟩

/-- Witness for the amended C4 theorem at the concrete two-video batch. -/
theorem aggregator_two_way_partition_witness :
    (success_items exBatchResults).length + (failure_items exBatchResults).length
        = exBatchResults.length ∧
    ("a.mp4", some "RATE_LIMIT") ∈ failure_items exBatchResults :=
  ⟨(aggregator_two_way_partition exBatchResults (by decide)).1,
   by
    have := (aggregator_two_way_partition exBatchResults (by decide)).2
      ("d/a.mp4", some "RATE_LIMIT") (by decide) rfl
    simpa [basename] using this⟩

/-- Claim C5: a session whose caption artifact is missing returns the
Failed value `None` before any network call: no initialization, transfer
or poll request is issued. -/
theorem missing_caption_failed_no_network (env : Env)
    (h : env.captionExists = false) :
    direct_post_video env = (SessionOutcome.retVal none, []) := by
  unfold direct_post_video
  simp [h]

/-- Witness for C5 at the concrete caption-less session. -/
theorem missing_caption_failed_no_network_witness :
    direct_post_video noCaptionEnv = (SessionOutcome.retVal none, []) :=
  missing_caption_failed_no_network noCaptionEnv rfl

/-- Claim C6: a session whose 200 init response carries the recognized
rate-limit error code `"spam_risk_too_many_pending_share"` returns
`"RATE_LIMIT"` after the single initialization call: no transfer and no
poll request is issued. -/
theorem rate_limit_init_skips_transfer_and_poll (env : Env)
    (hc : env.captionExists = true)
    (hs : env.initResponse.status_code = 200)
    (he : env.initResponse.hasError = true)
    (hcode : env.initResponse.errorCode = some "spam_risk_too_many_pending_share") :
    direct_post_video env =
      (SessionOutcome.retVal (some "RATE_LIMIT"), [NetCall.initCall]) := by
  unfold direct_post_video init_video_post
  simp [hc, hs, he, hcode, pyPairIsTruthy]

/-- Witness for C6 at the concrete rate-limited session. -/
theorem rate_limit_init_skips_transfer_and_poll_witness :
    direct_post_video rateLimitEnv =
      (SessionOutcome.retVal (some "RATE_LIMIT"), [NetCall.initCall]) :=
  rate_limit_init_skips_transfer_and_poll rateLimitEnv rfl rfl rfl rfl

/-- Claim C7: whatever non-terminal responses precede it, the first 404
from the status endpoint makes `poll_video_status` return the synthetic
`"COMPLETED"` at once: exactly one more query than the preceding
responses, no query into the remaining stream, and no wait interval after
the 404 (one sleep per preceding response only). -/
theorem poll_404_completes_immediately (pre rest : List PollResponse)
    (r : PollResponse)
    (hpre : ∀ x ∈ pre, pollContinues x) (h404 : r.status_code = 404) :
    poll_video_status (pre ++ r :: rest) =
      some (some "COMPLETED", pre.length + 1, pre.length) := by
  induction pre with
  | nil =>
    have h200 : ¬ r.status_code = 200 := by omega
    simp [poll_video_status, h200, h404]
  | cons a t ih =>
    have hat := hpre a (List.mem_cons_self a t)
    have ht : ∀ x ∈ t, pollContinues x := fun x hx => hpre x (List.mem_cons_of_mem a hx)
    have ihr := ih ht
    rcases hat with ⟨h1, h2⟩ | ⟨h1, h2⟩
    · simp [poll_video_status, h1, h2, ihr]
    · simp [poll_video_status, h1, h2, ihr]

/-- Witness for C7: one transient 500, then a 404 (with a further response
behind it that is never queried). -/
theorem poll_404_completes_immediately_witness :
    poll_video_status
      [{ status_code := 500, status := none },
       { status_code := 404, status := none },
       { status_code := 200, status := some "X" }] =
      some (some "COMPLETED", 2, 1) := by
  have h := poll_404_completes_immediately
    [{ status_code := 500, status := none }]
    [{ status_code := 200, status := some "X" }]
    { status_code := 404, status := none }
    (by
      intro x hx
      simp only [List.mem_singleton] at hx
      subst hx
      exact Or.inr (by decide))
    rfl
  simpa using h

/-- Claim C8: a poll stream reporting `"PROCESSING_UPLOAD"` twice and then
`"published"` makes `poll_video_status` return the terminal status
`"published"` after exactly three queries and two 5-second waits (one per
processing response, none after the terminal one), whatever lies behind it. -/
theorem poll_processing_twice_then_published (rest : List PollResponse) :
    poll_video_status
      ({ status_code := 200, status := some "PROCESSING_UPLOAD" } ::
       { status_code := 200, status := some "PROCESSING_UPLOAD" } ::
       { status_code := 200, status := some "published" } :: rest) =
      some (some "published", 3, 2) := rfl

/-- Claim C9: every verifier `generate_code_verifier` can produce has
exactly the configured length, draws every character from
`[A-Za-z0-9-._~]`, and `generate_code_challenge` is a pure function of the
verifier alone (equal verifiers give equal challenges). -/
theorem pkce_verifier_length_charset_challenge (L : Nat) (pick : Nat → Nat) :
    (generate_code_verifier L pick).length = L ∧
    (∀ c ∈ (generate_code_verifier L pick).data, c ∈ verifierAllowed) ∧
    (∀ v w : String, v = w →
        generate_code_challenge v = generate_code_challenge w) := by
  refine ⟨?_, ?_, ?_⟩
  · show ((List.range L).map (fun i => pychoice verifierAllowed (pick i))).length = L
    simp
  · intro c hc
    have hc2 : c ∈ (List.range L).map (fun i => pychoice verifierAllowed (pick i)) := hc
    obtain ⟨i, _, hcc⟩ := List.mem_map.1 hc2
    have hlt : pick i % verifierAllowed.length < verifierAllowed.length :=
      Nat.mod_lt _ (by decide)
    exact hcc ▸ getD_mem_of_lt verifierAllowed (pick i % verifierAllowed.length) 'a' hlt
  · intro v w h
    rw [h]

/-- Witness for C9 at length 3 with a constant draw. -/
theorem pkce_verifier_length_charset_challenge_witness :
    (generate_code_verifier 3 (fun _ => 0)).length = 3 ∧
    'a' ∈ verifierAllowed ∧
    generate_code_challenge "v" = generate_code_challenge "v" := by
  obtain ⟨h1, h2, h3⟩ := pkce_verifier_length_charset_challenge 3 (fun _ => 0)
  exact ⟨h1, h2 'a' (by decide), h3 "v" "v" rfl⟩

/-- Claim C10: the sidecar path `save_description` writes and the caption
path `direct_post_video` reads are the same function of the video path:
the video's extension replaced by `".txt"`. -/
theorem caption_path_agreement (video_path : String) :
    Transcribe.save_description_path video_path =
      Upload.caption_txt_file video_path := rfl
